import Mathlib

/-!
Shallow embedding of the recipe measurement engine
(src/backend/recipes/utils.py) and proofs about its behaviour.

Quantities are modelled as exact rationals, the arithmetic the
specification mandates for quantity handling.  Python exceptions are
modelled by Option results (none stands for a raised exception).
Strings are modelled by their character lists; the Python string
operations used by the code (lower, strip, substring membership,
regex-based measurement matching) are reimplemented below, faithfully
to the semantics of the source.
-/

/-- Decimal digit characters, matching the ASCII digits recognised by
the measurement regular expressions. -/
def isDigitChar (c : Char) : Bool :=
  '0' ≤ c && c ≤ '9'

/-- Whitespace characters stripped by Python str.strip and matched by
the regex whitespace class. -/
def isSpaceChar (c : Char) : Bool :=
  c == ' ' || c == '\t' || c == '\n' || c == '\r' || c == '\x0b' || c == '\x0c'

/-- Lowercasing of a character list, as Python str.lower on ASCII text. -/
def pyLower (s : List Char) : List Char :=
  s.map Char.toLower

/-- Stripping surrounding whitespace from a character list, as Python
str.strip. -/
def pyStrip (s : List Char) : List Char :=
  (((s.dropWhile isSpaceChar).reverse).dropWhile isSpaceChar).reverse

/-- Boolean test that the first list is a leading segment of the second. -/
def leadsList : List Char → List Char → Bool
  | [], _ => true
  | _ :: _, [] => false
  | a :: as, b :: bs => a == b && leadsList as bs

/-- Boolean substring containment on character lists: the needle occurs
contiguously somewhere in the haystack. -/
def containsSub (needle : List Char) : List Char → Bool
  | [] => leadsList needle []
  | c :: rest => leadsList needle (c :: rest) || containsSub needle rest

/-- Python substring membership test: needle in hay. -/
def strContains (hay needle : String) : Bool :=
  containsSub needle.data hay.data

/-- Numeric value of a digit string, as Python Decimal applied to a run
of digits. -/
def natOfDigits (ds : List Char) : Nat :=
  ds.foldl (fun a c => 10 * a + (c.toNat - 48)) 0

/-- Unit categories distinguished by the converter. -/
inductive UnitCategory where
  | volume
  | weight
  | count
deriving DecidableEq

/-- Volume conversion table of UnitConverter (base unit: cup), as a
lookup from normalized spelling to cup factor. -/
def VOLUME_UNITS : String → Option ℚ
  | "ml" => some 0.00422675
  | "milliliter" => some 0.00422675
  | "milliliters" => some 0.00422675
  | "l" => some 4.22675
  | "liter" => some 4.22675
  | "liters" => some 4.22675
  | "tsp" => some 0.0208333
  | "teaspoon" => some 0.0208333
  | "teaspoons" => some 0.0208333
  | "tbsp" => some 0.0625
  | "tablespoon" => some 0.0625
  | "tablespoons" => some 0.0625
  | "fl oz" => some 0.125
  | "fluid ounce" => some 0.125
  | "fluid ounces" => some 0.125
  | "cup" => some 1
  | "cups" => some 1
  | "c" => some 1
  | "pint" => some 2
  | "pints" => some 2
  | "pt" => some 2
  | "quart" => some 4
  | "quarts" => some 4
  | "qt" => some 4
  | "gallon" => some 16
  | "gallons" => some 16
  | "gal" => some 16
  | _ => none

/-- Weight conversion table of UnitConverter (base unit: gram). -/
def WEIGHT_UNITS : String → Option ℚ
  | "mg" => some 0.001
  | "milligram" => some 0.001
  | "milligrams" => some 0.001
  | "g" => some 1
  | "gram" => some 1
  | "grams" => some 1
  | "kg" => some 1000
  | "kilogram" => some 1000
  | "kilograms" => some 1000
  | "oz" => some 28.3495
  | "ounce" => some 28.3495
  | "ounces" => some 28.3495
  | "lb" => some 453.592
  | "lbs" => some 453.592
  | "pound" => some 453.592
  | "pounds" => some 453.592
  | _ => none

/-- Count and special units of UnitConverter, which never convert. -/
def COUNT_UNITS : List String :=
  ["piece", "pieces", "whole", "item", "items",
   "clove", "cloves", "slice", "slices",
   "can", "cans", "package", "packages", "pkg",
   "bunch", "bunches", "head", "heads",
   "pinch", "pinches", "dash", "dashes",
   "to taste", "as needed"]

/-- UnitConverter.normalize_unit: lowercase and strip. -/
def normalize_unit (unit : String) : String :=
  String.mk (pyStrip (pyLower unit.data))

/-- UnitConverter.get_unit_category: volume and weight by exact table
membership of the normalized spelling, count by substring match against
the count vocabulary, otherwise none. -/
def get_unit_category (unit : String) : Option UnitCategory :=
  let normalized := normalize_unit unit
  match VOLUME_UNITS normalized with
  | some _ => some UnitCategory.volume
  | none =>
    match WEIGHT_UNITS normalized with
    | some _ => some UnitCategory.weight
    | none =>
      if COUNT_UNITS.any (fun cu => strContains normalized cu) then
        some UnitCategory.count
      else
        none

/-- UnitConverter.can_convert: both categories equal, not none and not
count. -/
def can_convert (from_unit to_unit : String) : Bool :=
  let from_cat := get_unit_category from_unit
  let to_cat := get_unit_category to_unit
  decide (from_cat = to_cat) && decide (from_cat ≠ none) &&
    decide (from_cat ≠ some UnitCategory.count)

/-- UnitConverter.convert: identity on textually equal normalized
units, failure when not convertible, otherwise multiply by the source
factor and divide by the target factor. -/
def convert (quantity : ℚ) (from_unit to_unit : String) : Option ℚ :=
  let from_norm := normalize_unit from_unit
  let to_norm := normalize_unit to_unit
  if from_norm = to_norm then
    some quantity
  else if can_convert from_unit to_unit then
    match get_unit_category from_unit with
    | some UnitCategory.volume =>
      match VOLUME_UNITS from_norm, VOLUME_UNITS to_norm with
      | some f, some t => some (quantity * f / t)
      | _, _ => none
    | some UnitCategory.weight =>
      match WEIGHT_UNITS from_norm, WEIGHT_UNITS to_norm with
      | some f, some t => some (quantity * f / t)
      | _, _ => none
    | _ => none
  else
    none

/-- Spellings that make choose_best_unit treat the original unit as an
ounce or pound family member. -/
def ozLbSpellings : List String :=
  ["oz", "ounce", "ounces", "lb", "lbs", "pound", "pounds"]

/-- UnitConverter.choose_best_unit: display-unit heuristic.  The Python
truthiness guards on conversion results are modelled by testing the
optional result and comparing it with zero. -/
def choose_best_unit (quantity : ℚ) (unit : String) : ℚ × String :=
  let normalized := normalize_unit unit
  match get_unit_category unit with
  | some UnitCategory.volume =>
    if quantity ≥ 16 then
      match convert quantity unit "gallon" with
      | some r => if r ≠ 0 then (r, if r > 1 then "gallon" else "gallon") else (quantity, unit)
      | none => (quantity, unit)
    else if quantity ≥ 1 then
      match convert quantity unit "cup" with
      | some r => if r ≠ 0 then (r, if r > 1 then "cups" else "cup") else (quantity, unit)
      | none => (quantity, unit)
    else if quantity < 0.0625 then
      match convert quantity unit "tsp" with
      | some r => if r ≠ 0 then (r, if r > 1 then "teaspoons" else "teaspoon") else (quantity, unit)
      | none => (quantity, unit)
    else
      match convert quantity unit "tbsp" with
      | some r => if r ≠ 0 then (r, if r > 1 then "tablespoons" else "tablespoon") else (quantity, unit)
      | none => (quantity, unit)
  | some UnitCategory.weight =>
    match convert quantity unit "g" with
    | some base_grams =>
      if base_grams ≠ 0 then
        if base_grams ≥ 1000 then
          (base_grams / 1000, "kg")
        else if base_grams ≥ 28.35 then
          if normalized ∈ ozLbSpellings then
            if base_grams ≥ 453.592 then
              match convert quantity unit "lb" with
              | some lbs => (lbs, if lbs > 1 then "lbs" else "lb")
              | none => (quantity, unit)
            else
              match convert quantity unit "oz" with
              | some oz => (oz, "oz")
              | none => (quantity, unit)
          else
            (base_grams, "g")
        else
          (base_grams, "g")
      else
        (quantity, unit)
    | none => (quantity, unit)
  | _ => (quantity, unit)

example : normalize_unit "  TBSP  " = "tbsp" := by decide
example : get_unit_category "cup" = some UnitCategory.volume := by decide
example : get_unit_category "lbs" = some UnitCategory.weight := by decide
example : get_unit_category "piece" = some UnitCategory.count := by decide
example : get_unit_category "unknown" = none := by decide
example : can_convert "cup" "tablespoon" = true := by decide
example : can_convert "cup" "lbs" = false := by decide
example : convert 1 "cup" "tablespoon" = some 16 := by with_unfolding_all decide
example : convert 1000 "g" "kg" = some 1 := by with_unfolding_all decide
example : convert 1 "cup" "lbs" = none := by decide
example : choose_best_unit 20 "cup" = (5/4, "gallon") := by with_unfolding_all decide
example : choose_best_unit 1500 "g" = (3/2, "kg") := by with_unfolding_all decide
example : choose_best_unit 2 "gallon" = (32, "cups") := by with_unfolding_all decide
example : choose_best_unit 0 "cup" = (0, "cup") := by with_unfolding_all decide

/-- Capture of the regex tail fragment consisting of optional
whitespace followed by a non-empty rest, applied at a remainder.  The
whitespace run is consumed greedily and one trailing whitespace
character is given back when nothing would remain for the rest. -/
def restCapture (r : List Char) : Option (List Char) :=
  let sp := r.takeWhile isSpaceChar
  let rest := r.dropWhile isSpaceChar
  if rest.isEmpty then
    match sp.getLast? with
    | some ch => some [ch]
    | none => none
  else
    some rest

/-- Matching of a final digit group followed by optional whitespace and
a non-empty rest: the digit run d is taken greedily and gives one digit
back to the rest when the remainder r is empty. -/
def digitsThenRest (d r : List Char) : Option (List Char × List Char) :=
  match restCapture r with
  | some cap => some (d, cap)
  | none =>
    if d.length ≥ 2 then
      match d.getLast? with
      | some ch => some (d.dropLast, [ch])
      | none => none
    else
      none

/-- Matcher for the mixed-number pattern of parse_measurement: an
integer, whitespace, an integer, a slash, an integer, optional
whitespace and a non-empty rest.  Returns the three digit groups and
the rest capture. -/
def matchMixed (s : List Char) : Option (List Char × List Char × List Char × List Char) :=
  let d1 := s.takeWhile isDigitChar
  let r1 := s.dropWhile isDigitChar
  if d1.isEmpty then none
  else
    let sp := r1.takeWhile isSpaceChar
    let r2 := r1.dropWhile isSpaceChar
    if sp.isEmpty then none
    else
      let d2 := r2.takeWhile isDigitChar
      let r3 := r2.dropWhile isDigitChar
      if d2.isEmpty then none
      else
        match r3 with
        | '/' :: r4 =>
          let d3 := r4.takeWhile isDigitChar
          let r5 := r4.dropWhile isDigitChar
          if d3.isEmpty then none
          else
            match digitsThenRest d3 r5 with
            | some (d3f, rest) => some (d1, d2, d3f, rest)
            | none => none
        | _ => none

/-- Matcher for the simple-fraction pattern of parse_measurement: an
integer, a slash, an integer, optional whitespace and a non-empty
rest. -/
def matchFraction (s : List Char) : Option (List Char × List Char × List Char) :=
  let d1 := s.takeWhile isDigitChar
  let r1 := s.dropWhile isDigitChar
  if d1.isEmpty then none
  else
    match r1 with
    | '/' :: r2 =>
      let d2 := r2.takeWhile isDigitChar
      let r3 := r2.dropWhile isDigitChar
      if d2.isEmpty then none
      else
        match digitsThenRest d2 r3 with
        | some (d2f, rest) => some (d1, d2f, rest)
        | none => none
    | _ => none

/-- Matcher for the decimal-or-integer pattern of parse_measurement: a
number with an optional fractional part, optional whitespace and a
non-empty rest, with the backtracking of the underlying regular
expression: the fractional digits and then the integer digits give
characters back to the rest when nothing would remain for it. -/
def matchSimple (s : List Char) : Option (List Char × List Char) :=
  let D := s.takeWhile isDigitChar
  let r := s.dropWhile isDigitChar
  if D.isEmpty then none
  else
    match r with
    | '.' :: r1 =>
      let F := r1.takeWhile isDigitChar
      let r2 := r1.dropWhile isDigitChar
      if F.isEmpty then
        match restCapture r with
        | some cap => some (D, cap)
        | none =>
          if D.length ≥ 2 then
            match D.getLast? with
            | some ch => some (D.dropLast, [ch])
            | none => none
          else
            none
      else
        match restCapture r2 with
        | some cap => some (D ++ '.' :: F, cap)
        | none =>
          if F.length ≥ 2 then
            match F.getLast? with
            | some ch => some (D ++ '.' :: F.dropLast, [ch])
            | none => none
          else
            some (D, '.' :: F)
    | _ =>
      match restCapture r with
      | some cap => some (D, cap)
      | none =>
        if D.length ≥ 2 then
          match D.getLast? with
          | some ch => some (D.dropLast, [ch])
          | none => none
        else
          none

/-- Matcher for the leading-number extraction of parse_measurement: the
longest leading number with an optional fractional part; the remainder
may be empty. -/
def matchLeadingNumber (s : List Char) : Option (List Char × List Char) :=
  let D := s.takeWhile isDigitChar
  let r := s.dropWhile isDigitChar
  if D.isEmpty then none
  else
    match r with
    | '.' :: r1 =>
      let F := r1.takeWhile isDigitChar
      if F.isEmpty then some (D, r)
      else some (D ++ '.' :: F, r1.dropWhile isDigitChar)
    | _ => some (D, r)

/-- Numeric value of a matched number token, an integer part optionally
followed by a dot and fractional digits. -/
def ratOfNumTok (t : List Char) : ℚ :=
  let D := t.takeWhile isDigitChar
  let r := t.dropWhile isDigitChar
  match r with
  | '.' :: F => (natOfDigits D : ℚ) + (natOfDigits F : ℚ) / ((10 : ℚ) ^ F.length)
  | _ => (natOfDigits D : ℚ)

/-- IngredientParser.parse_measurement.  The measurement is stripped,
then the four patterns are tried in the order of the source and the
remaining input is the final fallback.  A matched fraction whose
denominator digits denote zero makes the Python code raise a
division-by-zero exception; this is modelled by none. -/
def parse_measurement (measurement : String) : Option (ℚ × String) :=
  let s := pyStrip measurement.data
  match matchMixed s with
  | some (w, n, d, rest) =>
    if natOfDigits d = 0 then none
    else some ((natOfDigits w : ℚ) + (natOfDigits n : ℚ) / (natOfDigits d : ℚ),
               String.mk (pyStrip rest))
  | none =>
    match matchFraction s with
    | some (n, d, rest) =>
      if natOfDigits d = 0 then none
      else some ((natOfDigits n : ℚ) / (natOfDigits d : ℚ), String.mk (pyStrip rest))
    | none =>
      match matchSimple s with
      | some (tok, rest) => some (ratOfNumTok tok, String.mk (pyStrip rest))
      | none =>
        match matchLeadingNumber s with
        | some (tok, rest) =>
          let u := pyStrip rest
          some (ratOfNumTok tok, if u.isEmpty then "piece" else String.mk u)
        | none => some (1, String.mk s)

/-- Predicate for measurements on which the Python parser raises: a
mixed-number or fraction pattern matches with zero denominator digits. -/
def hasZeroDenomMatch (s : String) : Bool :=
  let t := pyStrip s.data
  match matchMixed t with
  | some (_, _, d, _) => natOfDigits d == 0
  | none =>
    match matchFraction t with
    | some (_, d, _) => natOfDigits d == 0
    | none => false

/-- Predicate for measurements matching none of the four numeric
patterns, so that the final fallback of parse_measurement applies. -/
def matchesNoRule (s : String) : Bool :=
  let t := pyStrip s.data
  (matchMixed t).isNone && (matchFraction t).isNone &&
    (matchSimple t).isNone && (matchLeadingNumber t).isNone

example : parse_measurement "2 cups" = some (2, "cups") := by with_unfolding_all decide
example : parse_measurement "1.5 tablespoons" = some (3/2, "tablespoons") := by
  with_unfolding_all decide
example : parse_measurement "1/2 cup" = some (1/2, "cup") := by with_unfolding_all decide
example : parse_measurement "1 1/2 cups" = some (3/2, "cups") := by with_unfolding_all decide
example : parse_measurement "3" = some (3, "piece") := by with_unfolding_all decide
example : parse_measurement "to taste" = some (1, "to taste") := by with_unfolding_all decide
example : parse_measurement "1/0 cup" = none := by with_unfolding_all decide
example : parse_measurement "1 1/0 cups" = none := by with_unfolding_all decide
example : hasZeroDenomMatch "1/0 cup" = true := by decide
example : matchesNoRule "to taste" = true := by decide

/-- Produce keywords of IngredientAggregator.categorize_ingredient. -/
def produce_keywords : List String :=
  ["tomato", "lettuce", "spinach", "kale", "carrot", "celery", "onion",
   "garlic", "potato", "pepper", "cucumber", "zucchini", "squash",
   "broccoli", "cauliflower", "cabbage", "mushroom", "avocado",
   "apple", "banana", "orange", "lemon", "lime", "berry", "berries",
   "basil", "cilantro", "parsley", "mint", "thyme", "rosemary"]

/-- Dairy keywords of categorize_ingredient. -/
def dairy_keywords : List String :=
  ["milk", "cream", "butter", "cheese", "yogurt", "sour cream",
   "cottage cheese", "ricotta", "mozzarella", "cheddar", "parmesan",
   "egg", "eggs"]

/-- Meat keywords of categorize_ingredient. -/
def meat_keywords : List String :=
  ["chicken", "beef", "pork", "turkey", "lamb", "fish", "salmon",
   "tuna", "shrimp", "bacon", "sausage", "ham", "steak", "ground meat"]

/-- Pantry keywords of categorize_ingredient. -/
def pantry_keywords : List String :=
  ["flour", "sugar", "salt", "rice", "pasta", "oil", "vinegar",
   "honey", "syrup", "baking powder", "baking soda", "yeast",
   "cornstarch", "cocoa", "chocolate", "vanilla", "almond extract"]

/-- Canned keywords of categorize_ingredient. -/
def canned_keywords : List String :=
  ["canned", "can of", "tomato paste", "tomato sauce", "broth", "stock",
   "beans", "chickpeas", "corn"]

/-- Condiment keywords of categorize_ingredient. -/
def condiment_keywords : List String :=
  ["sauce", "ketchup", "mustard", "mayonnaise", "salsa", "dressing",
   "soy sauce", "hot sauce", "bbq sauce", "worcestershire"]

/-- Spice keywords of categorize_ingredient. -/
def spice_keywords : List String :=
  ["pepper", "paprika", "cumin", "oregano", "basil", "cinnamon",
   "nutmeg", "ginger", "turmeric", "curry", "chili powder", "cayenne",
   "garlic powder", "onion powder"]

/-- Frozen keywords of categorize_ingredient. -/
def frozen_keywords : List String :=
  ["frozen", "ice cream"]

/-- Bakery keywords of categorize_ingredient. -/
def bakery_keywords : List String :=
  ["bread", "roll", "bun", "bagel", "croissant", "tortilla", "pita"]

/-- Beverage keywords of categorize_ingredient. -/
def beverage_keywords : List String :=
  ["juice", "soda", "water", "coffee", "tea", "wine", "beer"]

/-- Substring match of any keyword of a list inside a lowered name. -/
def anyKeyword (kws : List String) (name_lower : String) : Bool :=
  kws.any (fun kw => strContains name_lower kw)

/-- IngredientAggregator.categorize_ingredient: lowercase the name and
test the keyword lists in the order of the source, first match wins,
otherwise the default category. -/
def categorize_ingredient (ingredient_name : String) : String :=
  let name_lower := String.mk (pyLower ingredient_name.data)
  if anyKeyword produce_keywords name_lower then "produce"
  else if anyKeyword dairy_keywords name_lower then "dairy"
  else if anyKeyword meat_keywords name_lower then "meat"
  else if anyKeyword canned_keywords name_lower then "canned"
  else if anyKeyword condiment_keywords name_lower then "condiments"
  else if anyKeyword spice_keywords name_lower then "spices"
  else if anyKeyword frozen_keywords name_lower then "frozen"
  else if anyKeyword bakery_keywords name_lower then "bakery"
  else if anyKeyword beverage_keywords name_lower then "beverages"
  else if anyKeyword pantry_keywords name_lower then "pantry"
  else "other"

/-- Priority order of keyword lists as the specification states it:
produce, dairy, meat, canned, condiments, spices, frozen, bakery,
beverages, pantry, with the default category when nothing matches. -/
def categoryChecks : List (List String × String) :=
  [(produce_keywords, "produce"), (dairy_keywords, "dairy"),
   (meat_keywords, "meat"), (canned_keywords, "canned"),
   (condiment_keywords, "condiments"), (spice_keywords, "spices"),
   (frozen_keywords, "frozen"), (bakery_keywords, "bakery"),
   (beverage_keywords, "beverages"), (pantry_keywords, "pantry")]

/-- First-match-wins classification over the ordered check list, the
form in which the specification states categorize. -/
def firstMatchCategory (name : String) : String :=
  let name_lower := String.mk (pyLower name.data)
  categoryChecks.foldr
    (fun p acc => if anyKeyword p.1 name_lower then p.2 else acc) "other"

/-- Ingredient record consumed by the aggregator: a display name, a raw
measurement string and a source recipe identifier. -/
structure IngredientRecord where
  name : String
  measurement : String
  recipe_id : ℕ
deriving DecidableEq

/-- Aggregated entry held per normalized ingredient name.  Notes are
modelled structurally as the (quantity, unit text) pairs of the
formatted note strings appended by the source. -/
structure AggEntry where
  quantity : ℚ
  unit : String
  source_recipes : List ℕ
  category : String
  original_name : String
  notes : List (ℚ × String)
deriving DecidableEq

/-- Lookup in the insertion-ordered mapping of the aggregator. -/
def lookupAssoc (k : String) : List (String × AggEntry) → Option AggEntry
  | [] => none
  | (k1, v) :: rest => if k1 = k then some v else lookupAssoc k rest

/-- In-place update of the insertion-ordered mapping of the
aggregator. -/
def updateAssoc (k : String) (v : AggEntry) : List (String × AggEntry) → List (String × AggEntry)
  | [] => []
  | (k1, v1) :: rest =>
    if k1 = k then (k1, v) :: rest else (k1, v1) :: updateAssoc k v rest

/-- Merge of a later occurrence into the existing entry, the body of
the existing-ingredient branch of aggregate_ingredients: convert and
add when possible (falling back to a raw add when the conversion
result is falsy), add directly on textually equal normalized units,
otherwise record a note and leave the quantity unchanged. -/
def mergeEntry (existing : AggEntry) (quantity : ℚ) (unit : String) : AggEntry :=
  if can_convert unit existing.unit then
    match convert quantity unit existing.unit with
    | some converted_qty =>
      if converted_qty ≠ 0 then
        { existing with quantity := existing.quantity + converted_qty }
      else
        { existing with quantity := existing.quantity + quantity }
    | none => { existing with quantity := existing.quantity + quantity }
  else if normalize_unit unit = normalize_unit existing.unit then
    { existing with quantity := existing.quantity + quantity }
  else
    { existing with notes := existing.notes ++ [(quantity, unit)] }

/-- Processing of one ingredient record by aggregate_ingredients: parse
the measurement (a raised parse exception degrades to quantity one and
the raw text), key by the lowercased stripped name, then create or
merge the entry and record the source recipe identifier once. -/
def processOne (agg : List (String × AggEntry)) (ing : IngredientRecord) :
    List (String × AggEntry) :=
  let parsed := (parse_measurement ing.measurement).getD (1, ing.measurement)
  let quantity := parsed.1
  let unit := parsed.2
  let key := String.mk (pyStrip (pyLower ing.name.data))
  match lookupAssoc key agg with
  | some existing =>
    let e1 := mergeEntry existing quantity unit
    let e2 :=
      if ing.recipe_id ∈ e1.source_recipes then e1
      else { e1 with source_recipes := e1.source_recipes ++ [ing.recipe_id] }
    updateAssoc key e2 agg
  | none =>
    agg ++ [(key,
      { quantity := quantity
        unit := unit
        source_recipes := [ing.recipe_id]
        category := categorize_ingredient key
        original_name := ing.name
        notes := [] })]

/-- IngredientAggregator.aggregate_ingredients: fold the records in
input order, then optimize every entry with choose_best_unit exactly
once. -/
def aggregate_ingredients (ingredients_list : List IngredientRecord) :
    List (String × AggEntry) :=
  let aggregated := ingredients_list.foldl processOne []
  aggregated.map (fun p =>
    let optimized := choose_best_unit p.2.quantity p.2.unit
    (p.1, { p.2 with quantity := optimized.1, unit := optimized.2 }))

example : categorize_ingredient "tomato" = "produce" := by decide
example : categorize_ingredient "milk" = "dairy" := by decide
example : categorize_ingredient "unknown item" = "other" := by decide
example : categorize_ingredient "flour" = "pantry" := by decide
example : aggregate_ingredients [] = [] := by decide
example :
    aggregate_ingredients
      [{ name := "Flour", measurement := "2 cups", recipe_id := 1 },
       { name := "Flour", measurement := "1 cup", recipe_id := 2 }] =
    [("flour",
      { quantity := 3, unit := "cups", source_recipes := [1, 2],
        category := "pantry", original_name := "Flour", notes := [] })] := by
  with_unfolding_all decide
example :
    aggregate_ingredients
      [{ name := "Milk", measurement := "2 cups", recipe_id := 1 },
       { name := "Milk", measurement := "8 tablespoons", recipe_id := 2 }] =
    [("milk",
      { quantity := 5/2, unit := "cups", source_recipes := [1, 2],
        category := "dairy", original_name := "Milk", notes := [] })] := by
  with_unfolding_all decide

theorem VOLUME_UNITS_pos (u : String) (f : ℚ) (h : VOLUME_UNITS u = some f) : 0 < f := by
  unfold VOLUME_UNITS at h
  split at h <;>
    first
    | exact Option.noConfusion h
    | (injection h with h; subst h; norm_num)

theorem WEIGHT_UNITS_pos (u : String) (f : ℚ) (h : WEIGHT_UNITS u = some f) : 0 < f := by
  unfold WEIGHT_UNITS at h
  split at h <;>
    first
    | exact Option.noConfusion h
    | (injection h with h; subst h; norm_num)

theorem cat_of_volume_factor (u : String) (f : ℚ)
    (h : VOLUME_UNITS (normalize_unit u) = some f) :
    get_unit_category u = some UnitCategory.volume := by
  simp only [get_unit_category, h]

theorem cat_of_weight_factor (u : String) (f : ℚ)
    (hv : VOLUME_UNITS (normalize_unit u) = none)
    (hw : WEIGHT_UNITS (normalize_unit u) = some f) :
    get_unit_category u = some UnitCategory.weight := by
  simp only [get_unit_category, hv, hw]

theorem volume_factor_of_cat (u : String)
    (h : get_unit_category u = some UnitCategory.volume) :
    ∃ f, VOLUME_UNITS (normalize_unit u) = some f := by
  simp only [get_unit_category] at h
  cases hv : VOLUME_UNITS (normalize_unit u) with
  | some f => exact ⟨f, rfl⟩
  | none =>
    rw [hv] at h
    cases hw : WEIGHT_UNITS (normalize_unit u) with
    | some f => rw [hw] at h; simp at h
    | none => rw [hw] at h; split at h <;> simp_all

theorem weight_factor_of_cat (u : String)
    (h : get_unit_category u = some UnitCategory.weight) :
    VOLUME_UNITS (normalize_unit u) = none ∧
      ∃ f, WEIGHT_UNITS (normalize_unit u) = some f := by
  simp only [get_unit_category] at h
  cases hv : VOLUME_UNITS (normalize_unit u) with
  | some f => rw [hv] at h; simp at h
  | none =>
    refine ⟨rfl, ?_⟩
    rw [hv] at h
    cases hw : WEIGHT_UNITS (normalize_unit u) with
    | some f => exact ⟨f, rfl⟩
    | none => rw [hw] at h; split at h <;> simp_all

theorem can_convert_true_iff (a b : String) :
    can_convert a b = true ↔
      (get_unit_category a = get_unit_category b ∧
        get_unit_category a ≠ none ∧
        get_unit_category a ≠ some UnitCategory.count) := by
  simp [can_convert, and_assoc]

theorem convert_volume_eq (q : ℚ) (a b : String) (fa fb : ℚ)
    (ha : VOLUME_UNITS (normalize_unit a) = some fa)
    (hb : VOLUME_UNITS (normalize_unit b) = some fb) :
    convert q a b =
      some (if normalize_unit a = normalize_unit b then q else q * fa / fb) := by
  have hca := cat_of_volume_factor a fa ha
  have hcb := cat_of_volume_factor b fb hb
  by_cases hab : normalize_unit a = normalize_unit b
  · simp [convert, hab]
  · have hcc : can_convert a b = true := by
      rw [can_convert_true_iff]
      exact ⟨hca.trans hcb.symm, by simp [hca], by simp [hca]⟩
    simp [convert, hab, hcc, hca, ha, hb]

theorem convert_weight_eq (q : ℚ) (a b : String) (fa fb : ℚ)
    (hva : VOLUME_UNITS (normalize_unit a) = none)
    (ha : WEIGHT_UNITS (normalize_unit a) = some fa)
    (hvb : VOLUME_UNITS (normalize_unit b) = none)
    (hb : WEIGHT_UNITS (normalize_unit b) = some fb) :
    convert q a b =
      some (if normalize_unit a = normalize_unit b then q else q * fa / fb) := by
  have hca := cat_of_weight_factor a fa hva ha
  have hcb := cat_of_weight_factor b fb hvb hb
  by_cases hab : normalize_unit a = normalize_unit b
  · simp [convert, hab]
  · have hcc : can_convert a b = true := by
      rw [can_convert_true_iff]
      exact ⟨hca.trans hcb.symm, by simp [hca], by simp [hca]⟩
    simp [convert, hab, hcc, hca, ha, hb]

theorem convert_volume_val (q : ℚ) (a b : String) (fa fb : ℚ)
    (ha : VOLUME_UNITS (normalize_unit a) = some fa)
    (hb : VOLUME_UNITS (normalize_unit b) = some fb) :
    convert q a b = some (q * fa / fb) := by
  rw [convert_volume_eq q a b fa fb ha hb]
  by_cases hab : normalize_unit a = normalize_unit b
  · rw [if_pos hab]
    rw [hab] at ha
    have heq : fa = fb := by
      have := ha.symm.trans hb
      exact Option.some.inj this
    have hfb0 : fb ≠ 0 := (VOLUME_UNITS_pos _ _ hb).ne'
    rw [heq]
    rw [mul_div_assoc, div_self hfb0, mul_one]
  · rw [if_neg hab]

theorem convert_weight_val (q : ℚ) (a b : String) (fa fb : ℚ)
    (hva : VOLUME_UNITS (normalize_unit a) = none)
    (ha : WEIGHT_UNITS (normalize_unit a) = some fa)
    (hvb : VOLUME_UNITS (normalize_unit b) = none)
    (hb : WEIGHT_UNITS (normalize_unit b) = some fb) :
    convert q a b = some (q * fa / fb) := by
  rw [convert_weight_eq q a b fa fb hva ha hvb hb]
  by_cases hab : normalize_unit a = normalize_unit b
  · rw [if_pos hab]
    rw [hab] at ha
    have heq : fa = fb := by
      have := ha.symm.trans hb
      exact Option.some.inj this
    have hfb0 : fb ≠ 0 := (WEIGHT_UNITS_pos _ _ hb).ne'
    rw [heq]
    rw [mul_div_assoc, div_self hfb0, mul_one]
  · rw [if_neg hab]

/-- Claim C9: convert applied with the same unit on both sides returns
the quantity unchanged for every unit string, including Count units and
unrecognized units, by the textual-equality short circuit. -/
theorem C9_identity_convert (q : ℚ) (u : String) : convert q u u = some q := by
  simp [convert]

/-- Claim C6: can_convert holds exactly when both units have the same
category and that category is volume or weight; consequently convert
from cup to lb fails for every quantity and can_convert on cup and lb
is false. -/
theorem C6_can_convert_spec :
    (∀ a b : String, can_convert a b = true ↔
      (get_unit_category a = get_unit_category b ∧
        (get_unit_category a = some UnitCategory.volume ∨
          get_unit_category a = some UnitCategory.weight))) ∧
    (∀ q : ℚ, convert q "cup" "lb" = none) ∧
    can_convert "cup" "lb" = false := by
  refine ⟨fun a b => ?_, fun q => ?_, by decide⟩
  · rw [can_convert_true_iff]
    constructor
    · rintro ⟨hab, hne, hnc⟩
      refine ⟨hab, ?_⟩
      cases hca : get_unit_category a with
      | none => exact absurd hca hne
      | some c =>
        cases c with
        | volume => exact Or.inl rfl
        | weight => exact Or.inr rfl
        | count => exact absurd hca hnc
    · rintro ⟨hab, hvw⟩
      rcases hvw with hv | hv <;> exact ⟨hab, by simp [hv], by simp [hv]⟩
  · have h1 : normalize_unit "cup" ≠ normalize_unit "lb" := by decide
    have h2 : can_convert "cup" "lb" = false := by decide
    simp [convert, h1, h2]

/-- Claim C6 witness at concrete units: cup and tablespoon are
convertible by the characterization. -/
theorem C6_witness : can_convert "cup" "tablespoon" = true :=
  (C6_can_convert_spec.1 "cup" "tablespoon").mpr
    ⟨by decide, Or.inl (by decide)⟩

/-- Claim C7: categorize_ingredient agrees with the first-match-wins
scan of the keyword lists in the order produce, dairy, meat, canned,
condiments, spices, frozen, bakery, beverages, pantry with default
other, and the three examples of the specification hold. -/
theorem C7_categorize_order :
    (∀ name : String, categorize_ingredient name = firstMatchCategory name) ∧
    categorize_ingredient "tomato" = "produce" ∧
    categorize_ingredient "milk" = "dairy" ∧
    categorize_ingredient "unknown item" = "other" :=
  ⟨fun _ => rfl, by decide, by decide, by decide⟩

/-- Claim C4: merging a record whose unit is neither convertible to nor
textually equal to the existing unit leaves the quantity unchanged and
appends the quantity and unit text as a note. -/
theorem C4_incompatible_note (existing : AggEntry) (q : ℚ) (u : String)
    (h1 : can_convert u existing.unit = false)
    (h2 : normalize_unit u ≠ normalize_unit existing.unit) :
    mergeEntry existing q u =
      { existing with notes := existing.notes ++ [(q, u)] } ∧
    (mergeEntry existing q u).quantity = existing.quantity := by
  have hm : mergeEntry existing q u =
      { existing with notes := existing.notes ++ [(q, u)] } := by
    unfold mergeEntry
    rw [h1]
    simp [h2]
  exact ⟨hm, by rw [hm]⟩

/-- Claim C4 witness: adding a pinch to an entry kept in cups records a
note and keeps the quantity. -/
theorem C4_witness :
    can_convert "pinch" "cups" = false ∧
    normalize_unit "pinch" ≠ normalize_unit "cups" ∧
    mergeEntry
      { quantity := 2, unit := "cups", source_recipes := [1],
        category := "dairy", original_name := "Milk", notes := [] } 1 "pinch" =
      { quantity := 2, unit := "cups", source_recipes := [1],
        category := "dairy", original_name := "Milk", notes := [(1, "pinch")] } :=
  ⟨by decide, by decide,
    (C4_incompatible_note
      { quantity := 2, unit := "cups", source_recipes := [1],
        category := "dairy", original_name := "Milk", notes := [] } 1 "pinch"
      (by decide) (by decide)).1⟩

theorem VOLUME_UNITS_gallon : VOLUME_UNITS (normalize_unit "gallon") = some 16 := by
  rw [show normalize_unit "gallon" = "gallon" from by decide]; rfl

theorem VOLUME_UNITS_cup : VOLUME_UNITS (normalize_unit "cup") = some 1 := by
  rw [show normalize_unit "cup" = "cup" from by decide]; rfl

theorem VOLUME_UNITS_tsp : VOLUME_UNITS (normalize_unit "tsp") = some 0.0208333 := by
  rw [show normalize_unit "tsp" = "tsp" from by decide]; rfl

theorem VOLUME_UNITS_tbsp : VOLUME_UNITS (normalize_unit "tbsp") = some 0.0625 := by
  rw [show normalize_unit "tbsp" = "tbsp" from by decide]; rfl

theorem choose_best_unit_volume (u : String) (f q : ℚ)
    (hf : VOLUME_UNITS (normalize_unit u) = some f) (hq : 0 < q) :
    choose_best_unit q u =
      if 16 ≤ q then (q * f / 16, "gallon")
      else if 1 ≤ q then (q * f / 1, if 1 < q * f / 1 then "cups" else "cup")
      else if q < 0.0625 then
        (q * f / 0.0208333, if 1 < q * f / 0.0208333 then "teaspoons" else "teaspoon")
      else
        (q * f / 0.0625, if 1 < q * f / 0.0625 then "tablespoons" else "tablespoon") := by
  have hcat := cat_of_volume_factor u f hf
  have hf0 := VOLUME_UNITS_pos _ _ hf
  have hg : convert q u "gallon" = some (q * f / 16) :=
    convert_volume_val q u "gallon" f 16 hf VOLUME_UNITS_gallon
  have hcp : convert q u "cup" = some (q * f / 1) :=
    convert_volume_val q u "cup" f 1 hf VOLUME_UNITS_cup
  have hts : convert q u "tsp" = some (q * f / 0.0208333) :=
    convert_volume_val q u "tsp" f 0.0208333 hf VOLUME_UNITS_tsp
  have htb : convert q u "tbsp" = some (q * f / 0.0625) :=
    convert_volume_val q u "tbsp" f 0.0625 hf VOLUME_UNITS_tbsp
  have hqf : 0 < q * f := mul_pos hq hf0
  simp only [choose_best_unit, hcat, hg, hcp, hts, htb, ge_iff_le]
  by_cases h16 : 16 ≤ q
  · have hne : q * f / 16 ≠ 0 := by positivity
    simp [h16, hne]
  · by_cases h1 : 1 ≤ q
    · have hne : q * f / 1 ≠ 0 := by positivity
      simp only [div_one] at hne ⊢
      simp [h16, h1, hne]
    · by_cases hsm : q < 0.0625
      · have hne : q * f / 0.0208333 ≠ 0 := by positivity
        simp [h16, h1, hsm, hne]
      · have hne : q * f / 0.0625 ≠ 0 := by positivity
        simp [h16, h1, hsm, hne]

/-- Claim C1 counterexample: at two gallons the cup-equivalent is 32,
at least 16, so the claim demands the gallon bucket and the unchanged
pair, but the code buckets by the raw quantity and returns cups. -/
theorem C1_counterexample :
    choose_best_unit 2 "gallon" = (32, "cups") ∧
    choose_best_unit 2 "gallon" ≠ (2, "gallon") := by
  with_unfolding_all decide

/-- Claim C1 as amended: for a volume unit and a positive quantity the
display bucket is selected by the raw quantity q, not its
cup-equivalent: gallon when q is at least 16, cup(s) when q is at least
1, teaspoon(s) when q is below one sixteenth, tablespoon(s) otherwise,
and the returned quantity is q converted into the chosen unit. -/
theorem C1_bucket_by_raw_quantity (u : String) (f q : ℚ)
    (hf : VOLUME_UNITS (normalize_unit u) = some f) (hq : 0 < q) :
    choose_best_unit q u =
      if 16 ≤ q then (q * f / 16, "gallon")
      else if 1 ≤ q then (q * f / 1, if 1 < q * f / 1 then "cups" else "cup")
      else if q < 0.0625 then
        (q * f / 0.0208333, if 1 < q * f / 0.0208333 then "teaspoons" else "teaspoon")
      else
        (q * f / 0.0625, if 1 < q * f / 0.0625 then "tablespoons" else "tablespoon") :=
  choose_best_unit_volume u f q hf hq

/-- Claim C1 witness: two gallons fall in the cup bucket because the
raw quantity 2 is below 16, and the result is 32 cups. -/
theorem C1_witness :
    VOLUME_UNITS (normalize_unit "gallon") = some 16 ∧ (0 : ℚ) < 2 ∧
    choose_best_unit 2 "gallon" =
      (if (16 : ℚ) ≤ 2 then ((2 : ℚ) * 16 / 16, "gallon")
       else if (1 : ℚ) ≤ 2 then ((2 : ℚ) * 16 / 1, if 1 < (2 : ℚ) * 16 / 1 then "cups" else "cup")
       else if (2 : ℚ) < 0.0625 then
         ((2 : ℚ) * 16 / 0.0208333, if 1 < (2 : ℚ) * 16 / 0.0208333 then "teaspoons" else "teaspoon")
       else
         ((2 : ℚ) * 16 / 0.0625, if 1 < (2 : ℚ) * 16 / 0.0625 then "tablespoons" else "tablespoon")) :=
  ⟨VOLUME_UNITS_gallon, by norm_num, C1_bucket_by_raw_quantity "gallon" 16 2 VOLUME_UNITS_gallon (by norm_num)⟩

/-- Claim C8 counterexample: twenty cups yield 1.25 gallon, a quantity
greater than one, yet the label stays the singular gallon, so the
pluralization contract does not extend to the gallon bucket. -/
theorem C8_counterexample :
    choose_best_unit 20 "cup" = (5 / 4, "gallon") ∧
    (1 : ℚ) < 5 / 4 ∧ "gallon" ≠ "gallons" := by
  with_unfolding_all decide

/-- Claim C8 as amended: for volume inputs with positive quantity the
cup, teaspoon and tablespoon buckets pluralize exactly when the
resulting quantity exceeds one (singular at exactly one), while the
gallon bucket always returns the singular label. -/
theorem C8_pluralization (u : String) (f q : ℚ)
    (hf : VOLUME_UNITS (normalize_unit u) = some f) (hq : 0 < q) :
    (16 ≤ q → (choose_best_unit q u).2 = "gallon") ∧
    (1 ≤ q → q < 16 →
      (choose_best_unit q u).2 =
        (if 1 < (choose_best_unit q u).1 then "cups" else "cup")) ∧
    (q < 0.0625 →
      (choose_best_unit q u).2 =
        (if 1 < (choose_best_unit q u).1 then "teaspoons" else "teaspoon")) ∧
    (0.0625 ≤ q → q < 1 →
      (choose_best_unit q u).2 =
        (if 1 < (choose_best_unit q u).1 then "tablespoons" else "tablespoon")) := by
  rw [choose_best_unit_volume u f q hf hq]
  refine ⟨fun h16 => ?_, fun h1 h16 => ?_, fun hsm => ?_, fun hsm h1 => ?_⟩
  · simp [h16]
  · have h16n : ¬ 16 ≤ q := not_le.mpr h16
    simp [h16n, h1]
  · have h16n : ¬ 16 ≤ q := not_le.mpr (lt_trans hsm (by norm_num))
    have h1n : ¬ 1 ≤ q := not_le.mpr (lt_trans hsm (by norm_num))
    simp [h16n, h1n, hsm]
  · have h16n : ¬ 16 ≤ q := not_le.mpr (lt_trans h1 (by norm_num))
    have h1n : ¬ 1 ≤ q := not_le.mpr h1
    have hsmn : ¬ q < 0.0625 := not_lt.mpr hsm
    simp [h16n, h1n, hsmn]

/-- Claim C8 witness: at twenty cups the gallon bucket applies and the
label is the singular gallon. -/
theorem C8_witness :
    VOLUME_UNITS (normalize_unit "cup") = some 1 ∧ (0 : ℚ) < 20 ∧
    (choose_best_unit 20 "cup").2 = "gallon" :=
  ⟨VOLUME_UNITS_cup, by norm_num,
    (C8_pluralization "cup" 1 20 VOLUME_UNITS_cup (by norm_num)).1 (by norm_num)⟩

/-- Claim C10: a zero quantity in a volume or weight unit is returned
unchanged by choose_best_unit, because every branch guards the
converted quantity with a truthiness test and zero is falsy. -/
theorem C10_zero_unchanged (u : String)
    (h : get_unit_category u = some UnitCategory.volume ∨
         get_unit_category u = some UnitCategory.weight) :
    choose_best_unit 0 u = (0, u) := by
  have h16 : ¬ (16 : ℚ) ≤ 0 := by norm_num
  have h1 : ¬ (1 : ℚ) ≤ 0 := by norm_num
  have hlt : (0 : ℚ) < 0.0625 := by norm_num
  rcases h with h | h
  · obtain ⟨f, hf⟩ := volume_factor_of_cat u h
    have hts : convert 0 u "tsp" = some 0 := by
      rw [convert_volume_val 0 u "tsp" f 0.0208333 hf VOLUME_UNITS_tsp]
      norm_num
    simp [choose_best_unit, h, hts, h16, h1, hlt]
  · obtain ⟨hv, f, hw⟩ := weight_factor_of_cat u h
    have hg : convert 0 u "g" = some 0 := by
      rw [convert_weight_val 0 u "g" f 1 hv hw (by decide) (by decide)]
      norm_num
    simp [choose_best_unit, h, hg]

/-- Claim C10 witness: zero cups are returned unchanged. -/
theorem C10_witness :
    get_unit_category "cup" = some UnitCategory.volume ∧
    choose_best_unit 0 "cup" = (0, "cup") :=
  ⟨by decide, C10_zero_unchanged "cup" (Or.inl (by decide))⟩

/-- Claim C5: converting a quantity from unit a to unit b and back
returns the original quantity exactly, for every successful
conversion, under the exact rational arithmetic of the model. -/
theorem C5_round_trip (q r : ℚ) (a b : String) (h : convert q a b = some r) :
    convert r b a = some q := by
  by_cases hab : normalize_unit a = normalize_unit b
  · simp only [convert, if_pos hab] at h
    have hqr : q = r := Option.some.inj h
    simp only [convert, if_pos hab.symm]
    rw [hqr]
  · simp only [convert] at h
    rw [if_neg hab] at h
    by_cases hcc : can_convert a b = true
    · rw [if_pos hcc] at h
      cases hca : get_unit_category a with
      | none => rw [hca] at h; simp at h
      | some c =>
        rw [hca] at h
        cases c with
        | count => simp at h
        | volume =>
          cases hfa : VOLUME_UNITS (normalize_unit a) with
          | none => rw [hfa] at h; simp at h
          | some fa =>
            cases hfb : VOLUME_UNITS (normalize_unit b) with
            | none => rw [hfa, hfb] at h; simp at h
            | some fb =>
              rw [hfa, hfb] at h
              simp only [Option.some.injEq] at h
              have hfa0 : fa ≠ 0 := (VOLUME_UNITS_pos _ _ hfa).ne'
              have hfb0 : fb ≠ 0 := (VOLUME_UNITS_pos _ _ hfb).ne'
              rw [convert_volume_val r b a fb fa hfb hfa]
              rw [Option.some.injEq, ← h]
              field_simp
        | weight =>
          have hcb : get_unit_category b = some UnitCategory.weight := by
            have := ((can_convert_true_iff a b).mp hcc).1
            rw [← this, hca]
          obtain ⟨hva, -, -⟩ := weight_factor_of_cat a hca
          obtain ⟨hvb, -, -⟩ := weight_factor_of_cat b hcb
          cases hwa : WEIGHT_UNITS (normalize_unit a) with
          | none => rw [hwa] at h; simp at h
          | some fa =>
            cases hwb : WEIGHT_UNITS (normalize_unit b) with
            | none => rw [hwa, hwb] at h; simp at h
            | some fb =>
              rw [hwa, hwb] at h
              simp only [Option.some.injEq] at h
              have hfa0 : fa ≠ 0 := (WEIGHT_UNITS_pos _ _ hwa).ne'
              have hfb0 : fb ≠ 0 := (WEIGHT_UNITS_pos _ _ hwb).ne'
              rw [convert_weight_val r b a fb fa hvb hwb hva hwa]
              rw [Option.some.injEq, ← h]
              field_simp
    · rw [if_neg hcc] at h
      simp at h

/-- Claim C5 witness: one cup becomes sixteen tablespoons and sixteen
tablespoons become one cup again. -/
theorem C5_witness :
    convert 1 "cup" "tbsp" = some 16 ∧ convert 16 "tbsp" "cup" = some 1 :=
  ⟨by with_unfolding_all decide,
    C5_round_trip 1 16 "cup" "tbsp" (by with_unfolding_all decide)⟩

/-- Claim C2 counterexample: on the input 1/0 cup the fraction rule
matches with a zero denominator and the parser raises (modelled by
none) instead of returning a pair; in particular it does not fail over
to the leading-number rule, which would produce quantity 1 with unit
text /0 cup. -/
theorem C2_counterexample :
    parse_measurement "1/0 cup" = none ∧
    parse_measurement "1/0 cup" ≠ some (1, "/0 cup") := by
  with_unfolding_all decide

/-- Claim C2 as amended: parse_measurement returns a pair for every
input except when the mixed-number or fraction rule matches with a zero
denominator, where the Python code raises instead of failing over to
rule 4; input matching no rule yields quantity 1 with the stripped
input string as the unit. -/
theorem C2_parse_total_except_zero_denom :
    (∀ s : String, hasZeroDenomMatch s = false →
      (parse_measurement s).isSome = true) ∧
    (∀ s : String, matchesNoRule s = true →
      parse_measurement s = some (1, String.mk (pyStrip s.data))) := by
  constructor
  · intro s h
    simp only [hasZeroDenomMatch] at h
    simp only [parse_measurement]
    cases hm : matchMixed (pyStrip s.data) with
    | some v =>
      obtain ⟨w, n, d, rest⟩ := v
      rw [hm] at h
      simp only [beq_eq_false_iff_ne, ne_eq] at h
      simp [h]
    | none =>
      rw [hm] at h
      cases hf : matchFraction (pyStrip s.data) with
      | some v =>
        obtain ⟨n, d, rest⟩ := v
        rw [hf] at h
        simp only [beq_eq_false_iff_ne, ne_eq] at h
        simp [hm, hf, h]
      | none =>
        cases hs : matchSimple (pyStrip s.data) with
        | some v =>
          obtain ⟨tok, rest⟩ := v
          simp [hm, hf, hs]
        | none =>
          cases hl : matchLeadingNumber (pyStrip s.data) with
          | some v =>
            obtain ⟨tok, rest⟩ := v
            simp [hm, hf, hs, hl]
          | none => simp [hm, hf, hs, hl]
  · intro s h
    simp only [matchesNoRule, Bool.and_eq_true, Option.isNone_iff_eq_none] at h
    obtain ⟨⟨⟨h1, h2⟩, h3⟩, h4⟩ := h
    simp [parse_measurement, h1, h2, h3, h4]

/-- Claim C2 witness: a parsable measurement yields a value and an
unparsable one falls back to quantity one with the stripped text. -/
theorem C2_witness :
    (parse_measurement "2 cups").isSome = true ∧
    parse_measurement "to taste" = some (1, String.mk (pyStrip "to taste".data)) :=
  ⟨C2_parse_total_except_zero_denom.1 "2 cups" (by decide),
   C2_parse_total_except_zero_denom.2 "to taste" (by decide)⟩

/-- Claim C3: aggregating two Flour records of 2 cups and 1 cup yields
one entry under the key flour with quantity 3, unit cups and both
source ids in order; aggregating Milk records of 2 cups and 8
tablespoons converts the tablespoons and yields quantity 2.5 in
cups. -/
theorem C3_aggregate_examples (r1 r2 : ℕ) (h : r1 ≠ r2) :
    aggregate_ingredients
      [{ name := "Flour", measurement := "2 cups", recipe_id := r1 },
       { name := "Flour", measurement := "1 cup", recipe_id := r2 }] =
    [("flour",
      { quantity := 3, unit := "cups", source_recipes := [r1, r2],
        category := "pantry", original_name := "Flour", notes := [] })] ∧
    aggregate_ingredients
      [{ name := "Milk", measurement := "2 cups", recipe_id := r1 },
       { name := "Milk", measurement := "8 tablespoons", recipe_id := r2 }] =
    [("milk",
      { quantity := 5/2, unit := "cups", source_recipes := [r1, r2],
        category := "dairy", original_name := "Milk", notes := [] })] := by
  have hrne : r2 ≠ r1 := Ne.symm h
  have p1 : parse_measurement "2 cups" = some (2, "cups") := by
    with_unfolding_all decide
  have p2 : parse_measurement "1 cup" = some (1, "cup") := by
    with_unfolding_all decide
  have p3 : parse_measurement "8 tablespoons" = some (8, "tablespoons") := by
    with_unfolding_all decide
  have key_flour : String.mk (pyStrip (pyLower "Flour".data)) = "flour" := by decide
  have key_milk : String.mk (pyStrip (pyLower "Milk".data)) = "milk" := by decide
  have cat_flour : categorize_ingredient "flour" = "pantry" := by decide
  have cat_milk : categorize_ingredient "milk" = "dairy" := by decide
  have cc1 : can_convert "cup" "cups" = true := by decide
  have cv1 : convert (1 : ℚ) "cup" "cups" = some 1 := by with_unfolding_all decide
  have cc2 : can_convert "tablespoons" "cups" = true := by decide
  have cv2 : convert (8 : ℚ) "tablespoons" "cups" = some (1/2) := by
    with_unfolding_all decide
  have cb1 : choose_best_unit 3 "cups" = (3, "cups") := by with_unfolding_all decide
  have cb2 : choose_best_unit (5/2) "cups" = (5/2, "cups") := by
    with_unfolding_all decide
  constructor
  · have s1 : processOne [] { name := "Flour", measurement := "2 cups", recipe_id := r1 } =
        [("flour",
          { quantity := 2, unit := "cups", source_recipes := [r1],
            category := "pantry", original_name := "Flour", notes := [] })] := by
      simp [processOne, p1, key_flour, lookupAssoc, cat_flour]
    have s2 : processOne
        [("flour",
          { quantity := 2, unit := "cups", source_recipes := [r1],
            category := "pantry", original_name := "Flour", notes := [] })]
        { name := "Flour", measurement := "1 cup", recipe_id := r2 } =
        [("flour",
          { quantity := 3, unit := "cups", source_recipes := [r1, r2],
            category := "pantry", original_name := "Flour", notes := [] })] := by
      simp [processOne, p2, key_flour, lookupAssoc, updateAssoc, mergeEntry,
        cc1, cv1, List.mem_singleton, hrne]
      norm_num
    simp [aggregate_ingredients, s1, s2, cb1]
  · have s1 : processOne [] { name := "Milk", measurement := "2 cups", recipe_id := r1 } =
        [("milk",
          { quantity := 2, unit := "cups", source_recipes := [r1],
            category := "dairy", original_name := "Milk", notes := [] })] := by
      simp [processOne, p1, key_milk, lookupAssoc, cat_milk]
    have s2 : processOne
        [("milk",
          { quantity := 2, unit := "cups", source_recipes := [r1],
            category := "dairy", original_name := "Milk", notes := [] })]
        { name := "Milk", measurement := "8 tablespoons", recipe_id := r2 } =
        [("milk",
          { quantity := 5/2, unit := "cups", source_recipes := [r1, r2],
            category := "dairy", original_name := "Milk", notes := [] })] := by
      simp [processOne, p3, key_milk, lookupAssoc, updateAssoc, mergeEntry,
        cc2, cv2, List.mem_singleton, hrne]
      norm_num
    simp [aggregate_ingredients, s1, s2, cb2]

/-- Claim C3 witness: the aggregation scenarios at the concrete recipe
identifiers one and two. -/
theorem C3_witness :
    (1 : ℕ) ≠ 2 ∧
    (aggregate_ingredients
      [{ name := "Flour", measurement := "2 cups", recipe_id := 1 },
       { name := "Flour", measurement := "1 cup", recipe_id := 2 }] =
    [("flour",
      { quantity := 3, unit := "cups", source_recipes := [1, 2],
        category := "pantry", original_name := "Flour", notes := [] })] ∧
    aggregate_ingredients
      [{ name := "Milk", measurement := "2 cups", recipe_id := 1 },
       { name := "Milk", measurement := "8 tablespoons", recipe_id := 2 }] =
    [("milk",
      { quantity := 5/2, unit := "cups", source_recipes := [1, 2],
        category := "dairy", original_name := "Milk", notes := [] })]) :=
  ⟨by decide, C3_aggregate_examples 1 2 (by decide)⟩
